import Mathlib

/-!
Shallow embedding of the confirmation workflow and the email transport
client of the email-newsletter service.

The subscriber status store and the token store are modelled as association
lists: `subscriptions` maps a subscriber id (a `Nat` standing for the Uuid)
to a status string, and `subscription_tokens` maps a token string to a
subscriber id.  Each database operation of the Rust code becomes a pure
function on this state.  Storage unavailability is modelled by a record of
fault flags, one per operation, so that every error path of the Rust code
is reachable.  The transaction of `confirm` is modelled the way sqlx
transactions behave: operations performed inside the transaction become
visible only at `commit`; any failure before the commit leaves the visible
store untouched.  `confirm` additionally records the transaction operations
it issues, in order, so that ordering claims can be stated.
-/

/-- HTTP responses the confirm route can produce: `HttpResponse::Ok`,
`HttpResponse::Unauthorized`, and the 500 produced by
`SubscribeConfirmError::UnexpectedError` via its `ResponseError` impl. -/
inductive HttpResponse
  | Ok
  | Unauthorized
  | InternalServerError
deriving DecidableEq, Repr

/-- Operations issued against the SQL transaction in `confirm`, in issue
order: `pool.begin()`, the status `UPDATE`, the token `DELETE`, and
`transaction.commit()`. -/
inductive DbOp
  | beginTx
  | update (subscriber_id : Nat)
  | delete (subscriber_id : Nat)
  | commit
deriving DecidableEq, Repr

/-- The persistent store: the `subscriptions` relation (id, status) and the
`subscription_tokens` relation (token, subscriber_id). -/
structure Store where
  subscriptions : List (Nat × String)
  subscription_tokens : List (String × Nat)
deriving DecidableEq, Repr

/-- Fault injection: each flag makes the corresponding database operation of
`confirm` fail with an `sqlx::Error`, standing for storage unavailability. -/
structure Faults where
  resolve_fails : Bool
  confirmed_read_fails : Bool
  begin_fails : Bool
  update_fails : Bool
  delete_fails : Bool
  commit_fails : Bool
deriving DecidableEq, Repr

/-- The fault-free execution environment. -/
def noFaults : Faults := ⟨false, false, false, false, false, false⟩

/-- `get_subscriber_id_from_token`: `SELECT subscriber_id FROM
subscription_tokens WHERE subscription_token = $1` with `fetch_optional`;
returns the subscriber id of the first matching row, if any.  Read-only. -/
def get_subscriber_id_from_token (subscription_token : String) (store : Store) :
    Option Nat :=
  (store.subscription_tokens.find? (fun r => r.1 == subscription_token)).map (·.2)

/-- `is_user_confirmed`: `SELECT status FROM subscriptions WHERE id = $1 AND
status = 'confirmed'` with `fetch_one`, returning `.is_ok()`.  `fetch_one`
errors both when no row matches and when the read itself fails
(`read_fails`), and both cases yield `false`. -/
def is_user_confirmed (subscriber_id : Nat) (store : Store) (read_fails : Bool) :
    Bool :=
  if read_fails then false
  else store.subscriptions.any (fun r => r.1 == subscriber_id && r.2 == "confirmed")

/-- `confirm_subscriber`: `UPDATE subscriptions SET status = 'confirmed'
WHERE id = $1`.  Updates every matching row; matching zero rows is not an
error (`execute` succeeds regardless of rows affected). -/
def confirm_subscriber (subscriber_id : Nat) (store : Store) : Store :=
  { store with
    subscriptions := store.subscriptions.map
      (fun r => if r.1 == subscriber_id then (r.1, "confirmed") else r) }

/-- `delete_old_token`: `DELETE FROM subscription_tokens WHERE
subscriber_id = $1`.  Removes every token row bound to the subscriber;
deleting zero rows is not an error. -/
def delete_old_token (subscriber_id : Nat) (store : Store) : Store :=
  { store with
    subscription_tokens :=
      store.subscription_tokens.filter (fun r => !(r.2 == subscriber_id)) }

/-- Outcome of one `confirm` call: the HTTP response, the visible store
afterwards, and the transaction operations issued, in order. -/
structure ConfirmResult where
  response : HttpResponse
  store : Store
  trace : List DbOp
deriving DecidableEq, Repr

/-- The `confirm` route handler.  Mirrors the Rust control flow: resolve the
token (a storage failure here propagates as `UnexpectedError`, a 500); a
`None` resolution returns `Unauthorized`; an already-confirmed subscriber
short-circuits to `Ok`; otherwise begin a transaction, run the status
`UPDATE` then the token `DELETE`, and commit.  Each step failing propagates
as a 500 via the `?` operator, and the uncommitted transaction rolls back,
leaving the visible store unchanged. -/
def confirm (token : String) (store : Store) (faults : Faults) : ConfirmResult :=
  if faults.resolve_fails then ⟨.InternalServerError, store, []⟩
  else
    match get_subscriber_id_from_token token store with
    | none => ⟨.Unauthorized, store, []⟩
    | some subscriber_id =>
      if is_user_confirmed subscriber_id store faults.confirmed_read_fails then
        ⟨.Ok, store, []⟩
      else if faults.begin_fails then
        ⟨.InternalServerError, store, []⟩
      else if faults.update_fails then
        ⟨.InternalServerError, store, [.beginTx, .update subscriber_id]⟩
      else if faults.delete_fails then
        ⟨.InternalServerError, store,
          [.beginTx, .update subscriber_id, .delete subscriber_id]⟩
      else if faults.commit_fails then
        ⟨.InternalServerError, store,
          [.beginTx, .update subscriber_id, .delete subscriber_id, .commit]⟩
      else
        ⟨.Ok, delete_old_token subscriber_id (confirm_subscriber subscriber_id store),
          [.beginTx, .update subscriber_id, .delete subscriber_id, .commit]⟩

/-!
Email transport client (`src/email_client.rs`).  The serde-serialized
request body is modelled with a small JSON type; the serializers mirror the
`#[serde(rename_all = "PascalCase")]` derives and the `HTMLPart` rename.
The network is abstracted by a `NetBehavior`: either the provider responds
with some status after some elapsed time, or the connection fails.  reqwest
applies the client-wide timeout to the whole call, and `error_for_status`
turns a 4xx or 5xx status into an error.
-/

/-- A JSON value, as serde would produce it. -/
inductive Json
  | null
  | str (s : String)
  | arr (items : List Json)
  | obj (fields : List (String × Json))

mutual

/-- All string atoms occurring in a JSON value, in serialization order. -/
def Json.strings : Json → List String
  | .null => []
  | .str s => [s]
  | .arr items => stringsOfList items
  | .obj fields => stringsOfFields fields

/-- String atoms of a list of JSON values. -/
def stringsOfList : List Json → List String
  | [] => []
  | j :: rest => j.strings ++ stringsOfList rest

/-- String atoms of a list of JSON object fields (values only; keys are
fixed serde field names, not data). -/
def stringsOfFields : List (String × Json) → List String
  | [] => []
  | (_, j) :: rest => j.strings ++ stringsOfFields rest

end

/-- `EmailInformation<'a>`: `{ email, name: Option }`. -/
structure EmailInformation where
  email : String
  name : Option String
deriving DecidableEq, Repr

/-- `SendEmailRequest<'a>`: one message of the provider body. -/
structure SendEmailRequest where
  sender_info : EmailInformation
  «to» : List EmailInformation
  subject : String
  html_part : String
  text_part : String
deriving DecidableEq, Repr

/-- `SendEmailRequestBody<'a>`: `{ messages }`. -/
structure SendEmailRequestBody where
  messages : List SendEmailRequest
deriving DecidableEq, Repr

/-- serde serialization of `EmailInformation` under
`rename_all = "PascalCase"`: `{"Email": ..., "Name": ...}`, with `None`
becoming `null`. -/
def serializeEmailInformation (e : EmailInformation) : Json :=
  .obj [("Email", .str e.email),
        ("Name", match e.name with | none => .null | some n => .str n)]

/-- serde serialization of `SendEmailRequest` under
`rename_all = "PascalCase"` with the explicit `HTMLPart` rename. -/
def serializeSendEmailRequest (r : SendEmailRequest) : Json :=
  .obj [("From", serializeEmailInformation r.sender_info),
        ("To", .arr (r.«to».map serializeEmailInformation)),
        ("Subject", .str r.subject),
        ("HTMLPart", .str r.html_part),
        ("TextPart", .str r.text_part)]

/-- serde serialization of `SendEmailRequestBody`. -/
def serializeSendEmailRequestBody (b : SendEmailRequestBody) : Json :=
  .obj [("Messages", .arr (b.messages.map serializeSendEmailRequest))]

/-- `EmailClient`: base url, configured sender address, the credential pair,
and the client-wide timeout (milliseconds) baked into the reqwest client at
construction. -/
structure EmailClient where
  base_url : String
  sender : String
  api_token : String
  secret_token : String
  timeout_millis : Nat
deriving DecidableEq, Repr

/-- The single HTTP request `send_email` dispatches: method, url, the HTTP
basic-auth credential pair (`basic_auth(api_token, Some(secret_token))`),
and the JSON body. -/
structure HttpRequest where
  method : String
  url : String
  basic_auth_user : String
  basic_auth_pass : Option String
  body : Json

/-- The request built by `send_email`: a POST to `<base_url>/send`, basic
auth from the two credential secrets, and the serialized
`SendEmailRequestBody` holding exactly one message with the configured
sender as `from` (no name) and the single recipient as `to` (no name). -/
def send_email_request (client : EmailClient)
    (recipient subject html_content text_content : String) : HttpRequest :=
  { method := "POST"
  , url := client.base_url ++ "/send"
  , basic_auth_user := client.api_token
  , basic_auth_pass := some client.secret_token
  , body := serializeSendEmailRequestBody
      { messages := [{ sender_info := { email := client.sender, name := none }
                     , «to» := [{ email := recipient, name := none }]
                     , subject := subject
                     , html_part := html_content
                     , text_part := text_content }] } }

/-- What the network does on one send: the provider responds with `status`
after `elapsed_millis`, or the connection fails outright. -/
inductive NetBehavior
  | responds (status : Nat) (elapsed_millis : Nat)
  | connectFailure
deriving DecidableEq, Repr

/-- The three kinds of `reqwest::Error` the call can surface: a timeout
(`is_timeout`), a connection-level failure (`is_connect`), and a status
error from `error_for_status` (`is_status`, carrying the status). -/
inductive SendEmailError
  | timeoutError
  | transportError
  | statusError (status : Nat)
deriving DecidableEq, Repr

/-- reqwest `Response::error_for_status`: errors exactly on a client-error
(4xx) or server-error (5xx) status. -/
def error_for_status (status : Nat) : Bool :=
  400 ≤ status && status ≤ 599

/-- Outcome of `send_email` for a given network behavior: a connection
failure surfaces as a transport error; a response arriving after the
client-wide timeout surfaces as a timeout error; an on-time response goes
through `error_for_status`; otherwise the call returns `Ok(())`. -/
def send_email_outcome (client : EmailClient) (net : NetBehavior) :
    Except SendEmailError Unit :=
  match net with
  | .connectFailure => .error .transportError
  | .responds status elapsed =>
    if client.timeout_millis < elapsed then .error .timeoutError
    else if error_for_status status then .error (.statusError status)
    else .ok ()

/-!
Theorems.
-/

/-- C2: the confirm-and-delete-token transition is atomic: the visible
store after any `confirm` call is either the original store (any failure,
or any path not reaching commit, aborts the unit of work with no partial
state) or the store with both the status update and the token deletion
applied (successful commit); and every error response leaves the store
untouched. -/
theorem confirm_transition_atomic (token : String) (store : Store) (faults : Faults) :
    ((confirm token store faults).store = store ∨
      ∃ id, get_subscriber_id_from_token token store = some id ∧
        (confirm token store faults).response = .Ok ∧
        (confirm token store faults).store =
          delete_old_token id (confirm_subscriber id store)) ∧
    ((confirm token store faults).response = .InternalServerError →
      (confirm token store faults).store = store) := by
  unfold confirm
  split
  · exact ⟨Or.inl rfl, fun _ => rfl⟩
  split
  · exact ⟨Or.inl rfl, fun _ => rfl⟩
  next id heq =>
    split
    · exact ⟨Or.inl rfl, fun _ => rfl⟩
    split
    · exact ⟨Or.inl rfl, fun _ => rfl⟩
    split
    · exact ⟨Or.inl rfl, fun _ => rfl⟩
    split
    · exact ⟨Or.inl rfl, fun _ => rfl⟩
    split
    · exact ⟨Or.inl rfl, fun _ => rfl⟩
    exact ⟨Or.inr ⟨id, heq, rfl, rfl⟩, fun h => nomatch h⟩

/-- C3: within every execution that enters the Confirming path (a
transaction was begun), the issued operation sequence is one of the
prefixes of `begin, UPDATE id, DELETE id, commit`: the status write is
issued before the token delete, both inside the single unit of work, and at
most one commit closes them together. -/
theorem confirm_status_write_precedes_token_delete (token : String) (store : Store)
    (faults : Faults) :
    DbOp.beginTx ∈ (confirm token store faults).trace →
    ∃ id, get_subscriber_id_from_token token store = some id ∧
      ((confirm token store faults).trace = [.beginTx, .update id] ∨
       (confirm token store faults).trace = [.beginTx, .update id, .delete id] ∨
       (confirm token store faults).trace =
         [.beginTx, .update id, .delete id, .commit]) := by
  unfold confirm
  split
  · intro h; simp at h
  split
  · intro h; simp at h
  next id heq =>
    split
    · intro h; simp at h
    split
    · intro h; simp at h
    split
    · exact fun _ => ⟨id, heq, Or.inl rfl⟩
    split
    · exact fun _ => ⟨id, heq, Or.inr (Or.inl rfl)⟩
    split
    · exact fun _ => ⟨id, heq, Or.inr (Or.inr rfl)⟩
    · exact fun _ => ⟨id, heq, Or.inr (Or.inr rfl)⟩

/-- C3 witness: a concrete pending subscriber with its token, fault-free:
the trace is exactly `begin, UPDATE, DELETE, commit`. -/
theorem confirm_status_write_precedes_token_delete_witness :
    ∃ id, get_subscriber_id_from_token "abc123"
        ⟨[(1, "pending_confirmation")], [("abc123", 1)]⟩ = some id ∧
      ((confirm "abc123" ⟨[(1, "pending_confirmation")], [("abc123", 1)]⟩
          noFaults).trace = [.beginTx, .update id] ∨
       (confirm "abc123" ⟨[(1, "pending_confirmation")], [("abc123", 1)]⟩
          noFaults).trace = [.beginTx, .update id, .delete id] ∨
       (confirm "abc123" ⟨[(1, "pending_confirmation")], [("abc123", 1)]⟩
          noFaults).trace = [.beginTx, .update id, .delete id, .commit]) :=
  confirm_status_write_precedes_token_delete "abc123"
    ⟨[(1, "pending_confirmation")], [("abc123", 1)]⟩ noFaults (by decide)

/-- C4: `confirm` answers `Unauthorized` exactly when token resolution
succeeded and produced no subscriber id; a storage failure during
resolution instead yields the 500 of `UnexpectedError`, so a bad token is
never reported as a system error and a resolution outage is never reported
as `Unauthorized`. -/
theorem confirm_unauthorized_iff_token_unresolved (token : String) (store : Store)
    (faults : Faults) :
    ((confirm token store faults).response = .Unauthorized ↔
      faults.resolve_fails = false ∧
        get_subscriber_id_from_token token store = none) ∧
    (faults.resolve_fails = true →
      (confirm token store faults).response = .InternalServerError) := by
  unfold confirm
  split
  next hr =>
    refine ⟨⟨(fun h => nomatch h), fun hc => by rw [hr] at hc; exact nomatch hc.1⟩,
      fun _ => rfl⟩
  next hr =>
    have hr' : faults.resolve_fails = false := by
      cases h : faults.resolve_fails
      · rfl
      · exact absurd h hr
    split
    next heq => exact ⟨⟨fun _ => ⟨hr', heq⟩, fun _ => rfl⟩, fun h => absurd h hr⟩
    next id heq =>
      have hnone : ¬ get_subscriber_id_from_token token store = none := by
        rw [heq]; exact fun h => nomatch h
      split
      · exact ⟨⟨(fun h => nomatch h), fun hc => absurd hc.2 hnone⟩, fun h => absurd h hr⟩
      split
      · exact ⟨⟨(fun h => nomatch h), fun hc => absurd hc.2 hnone⟩, fun h => absurd h hr⟩
      split
      · exact ⟨⟨(fun h => nomatch h), fun hc => absurd hc.2 hnone⟩, fun h => absurd h hr⟩
      split
      · exact ⟨⟨(fun h => nomatch h), fun hc => absurd hc.2 hnone⟩, fun h => absurd h hr⟩
      split
      · exact ⟨⟨(fun h => nomatch h), fun hc => absurd hc.2 hnone⟩, fun h => absurd h hr⟩
      · exact ⟨⟨(fun h => nomatch h), fun hc => absurd hc.2 hnone⟩, fun h => absurd h hr⟩

/-- C1: a valid unredeemed token bound to a pending (not-yet-confirmed)
subscriber: one fault-free `confirm` answers `Ok`, leaves every
subscription row of that subscriber with status `confirmed`, removes the
token so it no longer resolves, and a second `confirm` with the same token
then answers `Unauthorized`. -/
theorem confirm_once_confirms_and_consumes_token (t : String) (id : Nat) (store : Store)
    (htok : get_subscriber_id_from_token t store = some id)
    (huniq : ∀ p ∈ store.subscription_tokens, p.1 = t → p.2 = id)
    (hpending : store.subscriptions.any
      (fun r => r.1 == id && r.2 == "confirmed") = false) :
    (confirm t store noFaults).response = .Ok ∧
    (∀ p ∈ (confirm t store noFaults).store.subscriptions,
      p.1 = id → p.2 = "confirmed") ∧
    get_subscriber_id_from_token t (confirm t store noFaults).store = none ∧
    (confirm t (confirm t store noFaults).store noFaults).response =
      .Unauthorized := by
  have hc : confirm t store noFaults =
      ⟨.Ok, delete_old_token id (confirm_subscriber id store),
        [.beginTx, .update id, .delete id, .commit]⟩ := by
    simp [confirm, noFaults, htok, is_user_confirmed, hpending]
  have hsubs : ∀ p ∈ (confirm t store noFaults).store.subscriptions,
      p.1 = id → p.2 = "confirmed" := by
    rw [hc]
    intro p hp hpid
    simp only [delete_old_token, confirm_subscriber, List.mem_map] at hp
    obtain ⟨r, hr, hfr⟩ := hp
    cases hb : (r.1 == id) with
    | true => rw [hb] at hfr; simp at hfr; rw [← hfr]
    | false =>
      rw [hb] at hfr
      simp at hfr
      rw [← hfr] at hpid
      simp at hb
      exact absurd hpid hb
  have htok2 : get_subscriber_id_from_token t (confirm t store noFaults).store =
      none := by
    rw [hc]
    simp only [get_subscriber_id_from_token, delete_old_token, Option.map_eq_none']
    rw [List.find?_eq_none]
    intro p hp
    rw [List.mem_filter] at hp
    intro habs
    rw [beq_iff_eq] at habs
    have := huniq p hp.1 habs
    simp [this] at hp
  refine ⟨by rw [hc], hsubs, htok2, ?_⟩
  revert htok2
  generalize (confirm t store noFaults).store = S
  intro htok2
  simp [confirm, noFaults, htok2]

/-- C1 witness: token "abc123" bound to pending subscriber 1; the call
confirms, consumes the token, and the replay is rejected. -/
theorem confirm_once_confirms_and_consumes_token_witness :
    (confirm "abc123" ⟨[(1, "pending_confirmation")], [("abc123", 1)]⟩
        noFaults).response = .Ok ∧
    (∀ p ∈ (confirm "abc123" ⟨[(1, "pending_confirmation")], [("abc123", 1)]⟩
        noFaults).store.subscriptions, p.1 = 1 → p.2 = "confirmed") ∧
    get_subscriber_id_from_token "abc123"
      (confirm "abc123" ⟨[(1, "pending_confirmation")], [("abc123", 1)]⟩
        noFaults).store = none ∧
    (confirm "abc123"
      (confirm "abc123" ⟨[(1, "pending_confirmation")], [("abc123", 1)]⟩
        noFaults).store noFaults).response = .Unauthorized :=
  confirm_once_confirms_and_consumes_token "abc123" 1
    ⟨[(1, "pending_confirmation")], [("abc123", 1)]⟩
    (by decide) (by decide) (by decide)

/-- C5: a token resolving to an already-confirmed subscriber
short-circuits: `confirm` answers the same `Ok` as a fresh confirmation,
opens no unit of work (empty trace, so no begin, no delete), and the store
— the still-present token row included — is unchanged. -/
theorem confirm_already_confirmed_short_circuit (t : String) (id : Nat) (store : Store)
    (htok : get_subscriber_id_from_token t store = some id)
    (hconf : store.subscriptions.any
      (fun r => r.1 == id && r.2 == "confirmed") = true) :
    (confirm t store noFaults).response = .Ok ∧
    (confirm t store noFaults).store = store ∧
    (confirm t store noFaults).trace = [] := by
  have hc : confirm t store noFaults = ⟨.Ok, store, []⟩ := by
    simp [confirm, noFaults, htok, is_user_confirmed, hconf]
  exact ⟨by rw [hc], by rw [hc], by rw [hc]⟩

/-- C5 witness: subscriber 2 already confirmed, token "t2" still present. -/
theorem confirm_already_confirmed_short_circuit_witness :
    (confirm "t2" ⟨[(2, "confirmed")], [("t2", 2)]⟩ noFaults).response = .Ok ∧
    (confirm "t2" ⟨[(2, "confirmed")], [("t2", 2)]⟩ noFaults).store =
      ⟨[(2, "confirmed")], [("t2", 2)]⟩ ∧
    (confirm "t2" ⟨[(2, "confirmed")], [("t2", 2)]⟩ noFaults).trace = [] :=
  confirm_already_confirmed_short_circuit "t2" 2 ⟨[(2, "confirmed")], [("t2", 2)]⟩
    (by decide) (by decide)

/-- C6: a token that resolves to no subscriber id: `confirm` answers
`Unauthorized`, issues no transaction operation, and leaves the store
exactly as it was — the resolution read mutates nothing. -/
theorem confirm_unknown_token_no_mutation (t : String) (store : Store) (faults : Faults)
    (hres : faults.resolve_fails = false)
    (htok : get_subscriber_id_from_token t store = none) :
    (confirm t store faults).response = .Unauthorized ∧
    (confirm t store faults).store = store ∧
    (confirm t store faults).trace = [] := by
  have hc : confirm t store faults = ⟨.Unauthorized, store, []⟩ := by
    simp [confirm, hres, htok]
  exact ⟨by rw [hc], by rw [hc], by rw [hc]⟩

/-- C6 witness: unbound token "zzz" against a store holding one confirmed
subscriber and one token row. -/
theorem confirm_unknown_token_no_mutation_witness :
    (confirm "zzz" ⟨[(2, "confirmed")], [("t2", 2)]⟩ noFaults).response =
      .Unauthorized ∧
    (confirm "zzz" ⟨[(2, "confirmed")], [("t2", 2)]⟩ noFaults).store =
      ⟨[(2, "confirmed")], [("t2", 2)]⟩ ∧
    (confirm "zzz" ⟨[(2, "confirmed")], [("t2", 2)]⟩ noFaults).trace = [] :=
  confirm_unknown_token_no_mutation "zzz" ⟨[(2, "confirmed")], [("t2", 2)]⟩
    noFaults (by decide) (by decide)

/-- C9: `is_user_confirmed` fails closed: it answers `true` exactly when
the read succeeds and a row of that subscriber with status `confirmed`
exists; a failed read answers `false`; and on a failed read with a
resolvable token and healthy begin, `confirm` proceeds into the unit of
work (a transaction is begun) instead of reporting a false
already-confirmed success. -/
theorem is_user_confirmed_fails_closed (id : Nat) (store : Store) (b : Bool) :
    (is_user_confirmed id store b = true ↔
      b = false ∧ store.subscriptions.any
        (fun r => r.1 == id && r.2 == "confirmed") = true) ∧
    is_user_confirmed id store true = false ∧
    (∀ t faults, get_subscriber_id_from_token t store = some id →
      faults.resolve_fails = false → faults.confirmed_read_fails = true →
      faults.begin_fails = false →
      DbOp.beginTx ∈ (confirm t store faults).trace) := by
  refine ⟨?_, rfl, ?_⟩
  · cases b <;> simp [is_user_confirmed]
  · intro t faults htok hres hcrf hbf
    simp only [confirm, hres, htok, is_user_confirmed, hcrf, Bool.false_eq_true,
      if_false, if_true, hbf]
    split
    · simp
    split
    · simp
    split
    · simp
    · simp

/-- C9 witness: subscriber 5 is confirmed in the store, yet a failed read
reports not-confirmed, and the workflow enters the transaction. -/
theorem is_user_confirmed_fails_closed_witness :
    (is_user_confirmed 5 ⟨[(5, "confirmed")], [("t5", 5)]⟩ false = true ↔
      false = false ∧ (Store.mk [(5, "confirmed")] [("t5", 5)]).subscriptions.any
        (fun r => r.1 == 5 && r.2 == "confirmed") = true) ∧
    is_user_confirmed 5 ⟨[(5, "confirmed")], [("t5", 5)]⟩ true = false ∧
    (∀ t faults, get_subscriber_id_from_token t
        ⟨[(5, "confirmed")], [("t5", 5)]⟩ = some 5 →
      faults.resolve_fails = false → faults.confirmed_read_fails = true →
      faults.begin_fails = false →
      DbOp.beginTx ∈ (confirm t ⟨[(5, "confirmed")], [("t5", 5)]⟩ faults).trace) :=
  is_user_confirmed_fails_closed 5 ⟨[(5, "confirmed")], [("t5", 5)]⟩ false

/-- C10: a token resolving to a subscriber id with no row in the
subscriptions relation: the already-confirmed check is false, the zero-row
`UPDATE` is not an error, the token rows of that id are deleted, the
transaction commits, and the caller sees the same `Ok` as a genuine
confirmation. -/
theorem confirm_missing_subscriber_row_succeeds (t : String) (id : Nat) (store : Store)
    (htok : get_subscriber_id_from_token t store = some id)
    (hnorow : ∀ p ∈ store.subscriptions, ¬ p.1 = id) :
    (confirm t store noFaults).response = .Ok ∧
    (confirm t store noFaults).store.subscriptions = store.subscriptions ∧
    (∀ p ∈ (confirm t store noFaults).store.subscription_tokens, ¬ p.2 = id) ∧
    DbOp.commit ∈ (confirm t store noFaults).trace := by
  have hnc : store.subscriptions.any
      (fun r => r.1 == id && r.2 == "confirmed") = false := by
    rw [List.any_eq_false]
    intro x hx
    simp [hnorow x hx]
  have hc : confirm t store noFaults =
      ⟨.Ok, delete_old_token id (confirm_subscriber id store),
        [.beginTx, .update id, .delete id, .commit]⟩ := by
    simp [confirm, noFaults, htok, is_user_confirmed, hnc]
  refine ⟨by rw [hc], ?_, ?_, by rw [hc]; simp⟩
  · rw [hc]
    simp only [delete_old_token, confirm_subscriber]
    have : store.subscriptions.map
        (fun r => if r.1 == id then (r.1, "confirmed") else r) =
        store.subscriptions.map (fun r => r) := by
      apply List.map_congr_left
      intro a ha
      simp [hnorow a ha]
    rw [this, List.map_id']
  · rw [hc]
    intro p hp
    simp only [delete_old_token, confirm_subscriber, List.mem_filter] at hp
    have := hp.2
    simp at this
    exact this

/-- C10 witness: token "orphan" maps to id 7, which has no subscription
row; the call still commits and answers `Ok`. -/
theorem confirm_missing_subscriber_row_succeeds_witness :
    (confirm "orphan" ⟨[(1, "confirmed")], [("orphan", 7)]⟩ noFaults).response =
      .Ok ∧
    (confirm "orphan" ⟨[(1, "confirmed")], [("orphan", 7)]⟩
      noFaults).store.subscriptions = [(1, "confirmed")] ∧
    (∀ p ∈ (confirm "orphan" ⟨[(1, "confirmed")], [("orphan", 7)]⟩
      noFaults).store.subscription_tokens, ¬ p.2 = 7) ∧
    DbOp.commit ∈ (confirm "orphan" ⟨[(1, "confirmed")], [("orphan", 7)]⟩
      noFaults).trace :=
  confirm_missing_subscriber_row_succeeds "orphan" 7
    ⟨[(1, "confirmed")], [("orphan", 7)]⟩ (by decide) (by decide)

/-- C8: the request built by every send: one POST to `<base_url>/send`,
basic auth carrying exactly the API key as username and the API secret as
password, and a JSON body holding a `Messages` array with exactly one
message — one `From` (the configured sender, `Name` null), one `To` entry
(the recipient, `Name` null), the caller's `Subject`, `HTMLPart` and
`TextPart` — whose string atoms are exactly the sender, recipient, subject
and the two content parts, so the credentials never appear in the body. -/
theorem send_email_request_shape (client : EmailClient)
    (recipient subject html_content text_content : String) :
    (send_email_request client recipient subject html_content text_content).method
      = "POST" ∧
    (send_email_request client recipient subject html_content text_content).url
      = client.base_url ++ "/send" ∧
    (send_email_request client recipient subject html_content
      text_content).basic_auth_user = client.api_token ∧
    (send_email_request client recipient subject html_content
      text_content).basic_auth_pass = some client.secret_token ∧
    (send_email_request client recipient subject html_content text_content).body
      = .obj [("Messages", .arr [.obj
          [("From", .obj [("Email", .str client.sender), ("Name", .null)]),
           ("To", .arr [.obj [("Email", .str recipient), ("Name", .null)]]),
           ("Subject", .str subject),
           ("HTMLPart", .str html_content),
           ("TextPart", .str text_content)]])] ∧
    (send_email_request client recipient subject html_content
      text_content).body.strings =
      [client.sender, recipient, subject, html_content, text_content] := by
  refine ⟨rfl, rfl, rfl, rfl, rfl, ?_⟩
  simp [send_email_request, serializeSendEmailRequestBody,
    serializeSendEmailRequest, serializeEmailInformation, Json.strings,
    stringsOfList, stringsOfFields]

/-- C7 counterexample: status 304 is not a 2xx, yet `send_email` returns
`Ok(())` on it — reqwest `error_for_status` only rejects 4xx/5xx, so the
claimed "success exactly on 2xx / rejection on any non-2xx" is false. -/
theorem send_email_non_2xx_success_counterexample :
    ¬ (200 ≤ 304 ∧ 304 ≤ 299) ∧
    send_email_outcome ⟨"http://base", "sender@x.com", "key", "secret", 1000⟩
      (.responds 304 5) = .ok () ∧
    send_email_outcome ⟨"http://base", "sender@x.com", "key", "secret", 1000⟩
      (.responds 304 5) ≠ .error (.statusError 304) :=
  ⟨by decide, rfl, fun h => nomatch h⟩

/-- C7 amended: the call succeeds exactly when the provider responds within
the client-wide timeout with a status outside 400–599; a 4xx/5xx response
yields a status (provider-rejection) error carrying that status; exceeding
the timeout yields a timeout error; a connection-level failure yields a
transport error — no failure is swallowed. -/
theorem send_email_outcome_characterization (client : EmailClient) (s e : Nat) :
    send_email_outcome client .connectFailure = .error .transportError ∧
    (send_email_outcome client (.responds s e) = .error .timeoutError ↔
      client.timeout_millis < e) ∧
    (send_email_outcome client (.responds s e) = .error (.statusError s) ↔
      e ≤ client.timeout_millis ∧ 400 ≤ s ∧ s ≤ 599) ∧
    (send_email_outcome client (.responds s e) = .ok () ↔
      e ≤ client.timeout_millis ∧ ¬ (400 ≤ s ∧ s ≤ 599)) := by
  refine ⟨rfl, ?_, ?_, ?_⟩ <;>
    simp only [send_email_outcome, error_for_status] <;>
    split_ifs with h1 h2 <;>
    simp_all <;>
    omega
